import Mathlib

/-!
Shallow embedding of `agent/filters.go` from korableg/lc-sdk-go.

Go conventions carried into the embedding:
- a pointer field `*T` becomes `Option T` (nil pointer = `none`);
- a slice field `[]T` becomes `Option (List T)` (`none` = nil slice,
  `some []` = non-nil empty slice), since Go distinguishes nil from
  empty slices (e.g. the `vals == nil` test in `NewPropertyFilterType`);
- `interface\x7b\x7d` values become arbitrary `Json` values;
- in-place mutation of the receiver followed by `return af` becomes
  state passing: each mutator takes the receiver and returns the updated
  record, which is both the new state of the aggregate and its result;
- `encoding/json` marshalling with the `omitempty` tag becomes explicit
  field-list builders: a field is dropped when its value is the Go
  "empty" value for its type (false, 0, empty string, nil pointer,
  nil or empty slice/map); a non-nil pointer is always kept, even when
  it points at a zero value.
-/

/-- JSON values, as produced by Go's `encoding/json` for the types used here. -/
inductive Json where
  | null : Json
  | bool : Bool → Json
  | num : Int → Json
  | str : String → Json
  | arr : List Json → Json
  | obj : List (String × Json) → Json

/-- Field of a plain `string` with `omitempty`: dropped when empty. -/
def omitStr (k : String) (s : String) : List (String × Json) :=
  if s = "" then [] else [(k, Json.str s)]

/-- Field of a plain `int` with `omitempty`: dropped when zero. -/
def omitInt (k : String) (n : Int) : List (String × Json) :=
  if n = 0 then [] else [(k, Json.num n)]

/-- Field of a plain `bool` with `omitempty`: dropped when false. -/
def omitBool (k : String) (b : Bool) : List (String × Json) :=
  if b then [(k, Json.bool b)] else []

/-- Field of a `*bool` with `omitempty`: dropped only when the pointer is nil;
a pointer to `false` is kept. -/
def omitOptBool (k : String) : Option Bool → List (String × Json)
  | none => []
  | some b => [(k, Json.bool b)]

/-- Field of a slice with `omitempty`: dropped when nil or empty. -/
def omitList (k : String) (f : α → Json) : Option (List α) → List (String × Json)
  | none => []
  | some [] => []
  | some l => [(k, Json.arr (l.map f))]

/-- Field of a pointer to a struct with `omitempty`: dropped only when nil;
a non-nil pointer marshals the pointee (possibly to an empty object). -/
def omitOptObj (k : String) (f : α → Json) : Option α → List (String × Json)
  | none => []
  | some a => [(k, f a)]

/-- Insert a key/value pair into a key-sorted association list. -/
def insertByKey (p : String × β) : List (String × β) → List (String × β)
  | [] => [p]
  | q :: rest => if p.1 ≤ q.1 then p :: q :: rest else q :: insertByKey p rest

/-- Sort an association list by key, the order `encoding/json` uses for maps. -/
def sortByKey : List (String × β) → List (String × β)
  | [] => []
  | p :: rest => insertByKey p (sortByKey rest)

/-- Mirrors `propertyFilterType`: all four fields are pointers or slices,
each tagged `omitempty`. -/
structure propertyFilterType where
  Exists : Option Bool := none
  Values : Option (List Json) := none
  ExcludeValues : Option (List Json) := none
  RequireEveryValue : Option Bool := none

/-- Marshal a `propertyFilterType` value (fields in declaration order). -/
def marshalPropertyFilterType (p : propertyFilterType) : Json :=
  Json.obj (omitOptBool "exists" p.Exists ++
    omitList "values" id p.Values ++
    omitList "exclude_values" id p.ExcludeValues ++
    omitOptBool "require_every_value" p.RequireEveryValue)

/-- Mirrors `NewPropertyFilterType`: the `switch` first tests `vals == nil`,
then `includes`, then `!includes`. -/
def NewPropertyFilterType (includes : Bool) (vals : Option (List Json))
    (requireEveryValue : Bool) : propertyFilterType :=
  match vals with
  | none => { Exists := some includes }
  | some _ =>
    if includes then
      { Values := vals, RequireEveryValue := some requireEveryValue }
    else
      { ExcludeValues := vals, RequireEveryValue := some requireEveryValue }

example : NewPropertyFilterType true none false = { Exists := some true } := rfl
example : NewPropertyFilterType false (some []) true =
    { ExcludeValues := some [], RequireEveryValue := some true } := rfl

/-- Mirrors `eventTypesFilter`: two string slices and a `*bool`,
all `omitempty`. -/
structure eventTypesFilter where
  Values : Option (List String) := none
  ExcludeValues : Option (List String) := none
  RequireEveryValue : Option Bool := none

/-- Marshal an `eventTypesFilter` value. -/
def marshalEventTypesFilter (e : eventTypesFilter) : Json :=
  Json.obj (omitList "values" Json.str e.Values ++
    omitList "exclude_values" Json.str e.ExcludeValues ++
    omitOptBool "require_every_value" e.RequireEveryValue)

/-- Mirrors `SurveyFilter`: two plain string fields without `omitempty`,
so both are always serialized. -/
structure SurveyFilter where
  Type' : String
  AnswerID : String

/-- Marshal a `SurveyFilter` value: no `omitempty`, both fields kept. -/
def marshalSurveyFilter (s : SurveyFilter) : Json :=
  Json.obj [("type", Json.str s.Type'), ("answer_id", Json.str s.AnswerID)]

/-- Mirrors `PropertiesFilters`, a `map[string]map[string]*propertyFilterType`,
as an association list; the inner map is `Option` of an association list
(nil inner map marshals to `null`) and values are pointers. -/
def PropertiesFilters : Type :=
  List (String × Option (List (String × Option propertyFilterType)))

/-- Marshal one map value: a nil pointer becomes `null`. -/
def marshalPftPtr : Option propertyFilterType → Json
  | none => Json.null
  | some p => marshalPropertyFilterType p

/-- Marshal a `PropertiesFilters` map: `encoding/json` emits map entries in
sorted key order, at both nesting levels. -/
def marshalPropertiesFilters (pf : PropertiesFilters) : Json :=
  Json.obj ((sortByKey pf).map (fun e =>
    (e.1, match e.2 with
      | none => Json.null
      | some inner => Json.obj ((sortByKey inner).map (fun i => (i.1, marshalPftPtr i.2))))))

/-- Mirrors `archivesFilters`: every field is tagged `omitempty`.
Defaults are the Go zero values, so an omitted field constructs as zero. -/
structure archivesFilters where
  Agents : Option propertyFilterType := none
  GroupIDs : Option (List Nat) := none
  From : String := ""
  To : String := ""
  Properties : Option PropertiesFilters := none
  Tags : Option propertyFilterType := none
  Sales : Option propertyFilterType := none
  Goals : Option propertyFilterType := none
  Surveys : Option (List SurveyFilter) := none
  ThreadIDs : Option (List String) := none
  Query : String := ""
  EventTypes : Option eventTypesFilter := none

/-- Marshal an `archivesFilters` value, fields in declaration order.
A map field with `omitempty` is dropped when the map is nil or empty. -/
def marshalArchivesFilters (af : archivesFilters) : Json :=
  Json.obj (omitOptObj "agents" marshalPropertyFilterType af.Agents ++
    omitList "group_ids" (fun n => Json.num (Int.ofNat n)) af.GroupIDs ++
    omitStr "from" af.From ++
    omitStr "to" af.To ++
    (match af.Properties with
      | none => []
      | some [] => []
      | some pf => [("properties", marshalPropertiesFilters pf)]) ++
    omitOptObj "tags" marshalPropertyFilterType af.Tags ++
    omitOptObj "sales" marshalPropertyFilterType af.Sales ++
    omitOptObj "goals" marshalPropertyFilterType af.Goals ++
    omitList "surveys" marshalSurveyFilter af.Surveys ++
    omitList "thread_ids" Json.str af.ThreadIDs ++
    omitStr "query" af.Query ++
    omitOptObj "event_types" marshalEventTypesFilter af.EventTypes)

/-- Mirrors `NewArchivesFilters`: the zero-valued struct. -/
def NewArchivesFilters : archivesFilters := {}

/-- Mirrors `archivesFilters.ByAgents`. -/
def archivesFilters.ByAgents (af : archivesFilters) (includes : Bool)
    (vals : Option (List Json)) (requireEveryValue : Bool) : archivesFilters :=
  { af with Agents := some (NewPropertyFilterType includes vals requireEveryValue) }

/-- Mirrors `archivesFilters.ByGroups`. -/
def archivesFilters.ByGroups (af : archivesFilters) (groupIDs : Option (List Nat)) :
    archivesFilters :=
  { af with GroupIDs := groupIDs }

/-- Mirrors `archivesFilters.ByThreads`: `*af = archivesFilters\x7bThreadIDs: threadIDs\x7d`
overwrites the whole struct with a fresh one holding only the thread IDs. -/
def archivesFilters.ByThreads (_af : archivesFilters) (threadIDs : Option (List String)) :
    archivesFilters :=
  { ThreadIDs := threadIDs }

/-- Mirrors `archivesFilters.ByQuery`. -/
def archivesFilters.ByQuery (af : archivesFilters) (query : String) : archivesFilters :=
  { af with Query := query }

/-- Mirrors `archivesFilters.FromDate`. -/
def archivesFilters.FromDate (af : archivesFilters) (date : String) : archivesFilters :=
  { af with From := date }

/-- Mirrors `archivesFilters.ToDate`. -/
def archivesFilters.ToDate (af : archivesFilters) (date : String) : archivesFilters :=
  { af with To := date }

/-- Mirrors `archivesFilters.ByProperties`. -/
def archivesFilters.ByProperties (af : archivesFilters) (propsFilters : Option PropertiesFilters) :
    archivesFilters :=
  { af with Properties := propsFilters }

/-- Mirrors `archivesFilters.BySurveys`. -/
def archivesFilters.BySurveys (af : archivesFilters) (surveyFilters : Option (List SurveyFilter)) :
    archivesFilters :=
  { af with Surveys := surveyFilters }

/-- Mirrors `archivesFilters.ByTags`. -/
def archivesFilters.ByTags (af : archivesFilters) (includes : Bool)
    (vals : Option (List Json)) (requireEveryValue : Bool) : archivesFilters :=
  { af with Tags := some (NewPropertyFilterType includes vals requireEveryValue) }

/-- Mirrors `archivesFilters.BySales`. -/
def archivesFilters.BySales (af : archivesFilters) (includes : Bool)
    (vals : Option (List Json)) (requireEveryValue : Bool) : archivesFilters :=
  { af with Sales := some (NewPropertyFilterType includes vals requireEveryValue) }

/-- Mirrors `archivesFilters.ByGoals`. -/
def archivesFilters.ByGoals (af : archivesFilters) (includes : Bool)
    (vals : Option (List Json)) (requireEveryValue : Bool) : archivesFilters :=
  { af with Goals := some (NewPropertyFilterType includes vals requireEveryValue) }

/-- Mirrors `archivesFilters.ByEventTypes`: builds the filter with the value or
exclude-value slice according to `includes`, then sets `RequireEveryValue`. -/
def archivesFilters.ByEventTypes (af : archivesFilters) (includes : Bool)
    (vals : Option (List String)) (requireEveryValue : Bool) : archivesFilters :=
  let etf : eventTypesFilter :=
    if includes then { Values := vals } else { ExcludeValues := vals }
  { af with EventTypes := some { etf with RequireEveryValue := some requireEveryValue } }

/-- Mirrors `stringFilter`: two string slices, both `omitempty`. -/
structure stringFilter where
  Values : Option (List String) := none
  ExcludeValues : Option (List String) := none

/-- Marshal a `stringFilter` value. -/
def marshalStringFilter (sf : stringFilter) : Json :=
  Json.obj (omitList "values" Json.str sf.Values ++
    omitList "exclude_values" Json.str sf.ExcludeValues)

/-- Mirrors `NewStringFilter`: the `switch` keeps `Values` when `inclusive`,
else falls to the `default` case and keeps `ExcludeValues`. -/
def NewStringFilter (values : Option (List String)) (inclusive : Bool) : stringFilter :=
  if inclusive then { Values := values } else { ExcludeValues := values }

/-- Mirrors `integerFilter`: two `[]int64` slices, both `omitempty`. -/
structure integerFilter where
  Values : Option (List Int) := none
  ExcludeValues : Option (List Int) := none

/-- Marshal an `integerFilter` value. -/
def marshalIntegerFilter (intF : integerFilter) : Json :=
  Json.obj (omitList "values" Json.num intF.Values ++
    omitList "exclude_values" Json.num intF.ExcludeValues)

/-- Mirrors `NewIntegerFilter`. -/
def NewIntegerFilter (values : Option (List Int)) (inclusive : Bool) : integerFilter :=
  if inclusive then { Values := values } else { ExcludeValues := values }

/-- Mirrors `RangeFilter`: five plain `int` bounds, each `omitempty`. -/
structure RangeFilter where
  LTE : Int := 0
  LT : Int := 0
  GTE : Int := 0
  GT : Int := 0
  EQ : Int := 0

/-- Field list of a `RangeFilter`: each zero bound is dropped by `omitempty`. -/
def rangeFilterFields (r : RangeFilter) : List (String × Json) :=
  omitInt "lte" r.LTE ++ omitInt "lt" r.LT ++ omitInt "gte" r.GTE ++
    omitInt "gt" r.GT ++ omitInt "eq" r.EQ

/-- Marshal a `RangeFilter` value. -/
def marshalRangeFilter (r : RangeFilter) : Json :=
  Json.obj (rangeFilterFields r)

/-- Mirrors `DateRangeFilter`: five plain `string` bounds, each `omitempty`. -/
structure DateRangeFilter where
  LTE : String := ""
  LT : String := ""
  GTE : String := ""
  GT : String := ""
  EQ : String := ""

/-- Field list of a `DateRangeFilter`: each empty-string bound is dropped. -/
def dateRangeFilterFields (d : DateRangeFilter) : List (String × Json) :=
  omitStr "lte" d.LTE ++ omitStr "lt" d.LT ++ omitStr "gte" d.GTE ++
    omitStr "gt" d.GT ++ omitStr "eq" d.EQ

/-- Marshal a `DateRangeFilter` value. -/
def marshalDateRangeFilter (d : DateRangeFilter) : Json :=
  Json.obj (dateRangeFilterFields d)

/-- Mirrors `customersFilters`: every field is a pointer tagged `omitempty`. -/
structure customersFilters where
  Country : Option stringFilter := none
  Email : Option stringFilter := none
  Name : Option stringFilter := none
  CustomerID : Option stringFilter := none
  ChatGroupIDs : Option integerFilter := none
  ChatsCount : Option RangeFilter := none
  ThreadsCount : Option RangeFilter := none
  VisitsCount : Option RangeFilter := none
  CreatedAt : Option DateRangeFilter := none
  AgentLastEventCreatedAt : Option DateRangeFilter := none
  CustomerLastEventCreatedAt : Option DateRangeFilter := none
  IncludeCustomersWithoutChats : Option Bool := none

/-- Marshal a `customersFilters` value, fields in declaration order. -/
def marshalCustomersFilters (cf : customersFilters) : Json :=
  Json.obj (omitOptObj "country" marshalStringFilter cf.Country ++
    omitOptObj "email" marshalStringFilter cf.Email ++
    omitOptObj "name" marshalStringFilter cf.Name ++
    omitOptObj "customer_id" marshalStringFilter cf.CustomerID ++
    omitOptObj "chat_group_ids" marshalIntegerFilter cf.ChatGroupIDs ++
    omitOptObj "chats_count" marshalRangeFilter cf.ChatsCount ++
    omitOptObj "threads_count" marshalRangeFilter cf.ThreadsCount ++
    omitOptObj "visits_count" marshalRangeFilter cf.VisitsCount ++
    omitOptObj "created_at" marshalDateRangeFilter cf.CreatedAt ++
    omitOptObj "agent_last_event_created_at" marshalDateRangeFilter cf.AgentLastEventCreatedAt ++
    omitOptObj "customer_last_event_created_at" marshalDateRangeFilter cf.CustomerLastEventCreatedAt ++
    omitOptBool "include_customers_without_chats" cf.IncludeCustomersWithoutChats)

/-- Mirrors `NewCustomersFilters`: the zero-valued struct. -/
def NewCustomersFilters : customersFilters := {}

/-- Mirrors `customersFilters.ByCountry`. -/
def customersFilters.ByCountry (cf : customersFilters) (values : Option (List String))
    (inclusive : Bool) : customersFilters :=
  { cf with Country := some (NewStringFilter values inclusive) }

/-- Mirrors `customersFilters.ByEmail`. -/
def customersFilters.ByEmail (cf : customersFilters) (values : Option (List String))
    (inclusive : Bool) : customersFilters :=
  { cf with Email := some (NewStringFilter values inclusive) }

/-- Mirrors `customersFilters.ByName`. -/
def customersFilters.ByName (cf : customersFilters) (values : Option (List String))
    (inclusive : Bool) : customersFilters :=
  { cf with Name := some (NewStringFilter values inclusive) }

/-- Mirrors `customersFilters.ByID`. -/
def customersFilters.ByID (cf : customersFilters) (values : Option (List String))
    (inclusive : Bool) : customersFilters :=
  { cf with CustomerID := some (NewStringFilter values inclusive) }

/-- Mirrors `customersFilters.ByChatGroupIDs`. -/
def customersFilters.ByChatGroupIDs (cf : customersFilters) (values : Option (List Int))
    (inclusive : Bool) : customersFilters :=
  { cf with ChatGroupIDs := some (NewIntegerFilter values inclusive) }

/-- Mirrors `customersFilters.ByChatsCount`: stores the `*RangeFilter` argument. -/
def customersFilters.ByChatsCount (cf : customersFilters) (ranges : Option RangeFilter) :
    customersFilters :=
  { cf with ChatsCount := ranges }

/-- Mirrors `customersFilters.ByThreadsCount`. -/
def customersFilters.ByThreadsCount (cf : customersFilters) (ranges : Option RangeFilter) :
    customersFilters :=
  { cf with ThreadsCount := ranges }

/-- Mirrors `customersFilters.ByVisitsCount`. -/
def customersFilters.ByVisitsCount (cf : customersFilters) (ranges : Option RangeFilter) :
    customersFilters :=
  { cf with VisitsCount := ranges }

/-- Mirrors `customersFilters.ByCreationTime`. -/
def customersFilters.ByCreationTime (cf : customersFilters) (timeRange : Option DateRangeFilter) :
    customersFilters :=
  { cf with CreatedAt := timeRange }

/-- Mirrors `customersFilters.ByAgentsLastActivity`. -/
def customersFilters.ByAgentsLastActivity (cf : customersFilters)
    (timeRange : Option DateRangeFilter) : customersFilters :=
  { cf with AgentLastEventCreatedAt := timeRange }

/-- Mirrors `customersFilters.ByCustomersLastActivity`. -/
def customersFilters.ByCustomersLastActivity (cf : customersFilters)
    (timeRange : Option DateRangeFilter) : customersFilters :=
  { cf with CustomerLastEventCreatedAt := timeRange }

/-- Mirrors `customersFilters.WithIncludeCustomersWithoutChats`: stores the
address of the argument, i.e. a non-nil pointer to the given boolean. -/
def customersFilters.WithIncludeCustomersWithoutChats (cf : customersFilters) (value : Bool) :
    customersFilters :=
  { cf with IncludeCustomersWithoutChats := some value }

/-- Mirrors `chatsFilters`: two plain bools, a slice and a map, all `omitempty`. -/
structure chatsFilters where
  IncludeActive : Bool := false
  IncludeChatsWithoutThreads : Bool := false
  GroupIDs : Option (List Nat) := none
  Properties : Option PropertiesFilters := none

/-- Marshal a `chatsFilters` value, fields in declaration order; the plain
bools are dropped exactly when false. -/
def marshalChatsFilters (cf : chatsFilters) : Json :=
  Json.obj (omitBool "include_active" cf.IncludeActive ++
    omitBool "include_chats_without_threads" cf.IncludeChatsWithoutThreads ++
    omitList "group_ids" (fun n => Json.num (Int.ofNat n)) cf.GroupIDs ++
    (match cf.Properties with
      | none => []
      | some [] => []
      | some pf => [("properties", marshalPropertiesFilters pf)]))

/-- Mirrors `NewChatsFilters`: zero-valued except `IncludeActive: true`. -/
def NewChatsFilters : chatsFilters := { IncludeActive := true }

/-- Mirrors `chatsFilters.WithoutActiveChats`. -/
def chatsFilters.WithoutActiveChats (cf : chatsFilters) : chatsFilters :=
  { cf with IncludeActive := false }

/-- Mirrors `chatsFilters.WithChatsWithoutThreads`. -/
def chatsFilters.WithChatsWithoutThreads (cf : chatsFilters) : chatsFilters :=
  { cf with IncludeChatsWithoutThreads := true }

/-- Mirrors `chatsFilters.ByGroups`. -/
def chatsFilters.ByGroups (cf : chatsFilters) (groupIDs : Option (List Nat)) : chatsFilters :=
  { cf with GroupIDs := groupIDs }

/-- Mirrors `chatsFilters.ByProperties`. -/
def chatsFilters.ByProperties (cf : chatsFilters) (propsFilters : Option PropertiesFilters) :
    chatsFilters :=
  { cf with Properties := propsFilters }

/-- Mirrors `threadsFilters`: two plain strings, both `omitempty`. -/
structure threadsFilters where
  From : String := ""
  To : String := ""

/-- Marshal a `threadsFilters` value. -/
def marshalThreadsFilters (tf : threadsFilters) : Json :=
  Json.obj (omitStr "from" tf.From ++ omitStr "to" tf.To)

/-- Mirrors `NewThreadsFilters`: the zero-valued struct. -/
def NewThreadsFilters : threadsFilters := {}

/-- Mirrors `threadsFilters.FromDate`. -/
def threadsFilters.FromDate (tf : threadsFilters) (date : String) : threadsFilters :=
  { tf with From := date }

/-- Mirrors `threadsFilters.ToDate`. -/
def threadsFilters.ToDate (tf : threadsFilters) (date : String) : threadsFilters :=
  { tf with To := date }

/-- C1: for every archives aggregate state and every thread-ID list `t`,
`ByThreads t` leaves `ThreadIDs = t` and resets every other field to its
zero value; the returned aggregate is the resulting state itself. -/
theorem byThreads_resets_all_fields (af : archivesFilters) (t : Option (List String)) :
    (af.ByThreads t).ThreadIDs = t ∧
    (af.ByThreads t).Agents = none ∧
    (af.ByThreads t).GroupIDs = none ∧
    (af.ByThreads t).From = "" ∧
    (af.ByThreads t).To = "" ∧
    (af.ByThreads t).Properties = none ∧
    (af.ByThreads t).Tags = none ∧
    (af.ByThreads t).Sales = none ∧
    (af.ByThreads t).Goals = none ∧
    (af.ByThreads t).Surveys = none ∧
    (af.ByThreads t).Query = "" ∧
    (af.ByThreads t).EventTypes = none ∧
    af.ByThreads t = { ThreadIDs := t } :=
  ⟨rfl, rfl, rfl, rfl, rfl, rfl, rfl, rfl, rfl, rfl, rfl, rfl, rfl⟩

/-- C2: with a nil value list, `NewPropertyFilterType` sets only `Exists`
to the `includes` flag; both value sets and `RequireEveryValue` stay unset,
so the `requireEvery` argument is ignored. -/
theorem newPropertyFilterType_nil_vals (includes requireEvery : Bool) :
    NewPropertyFilterType includes none requireEvery =
      { Exists := some includes, Values := none, ExcludeValues := none,
        RequireEveryValue := none } :=
  rfl

/-- C3: with a non-nil value list `V`, `NewPropertyFilterType` puts `V` in
`Values` when `includes` is true and in `ExcludeValues` when false, records
`RequireEveryValue = r` in both cases, and leaves `Exists` unset. -/
theorem newPropertyFilterType_with_vals (V : List Json) (r : Bool) :
    NewPropertyFilterType true (some V) r =
      { Exists := none, Values := some V, ExcludeValues := none,
        RequireEveryValue := some r } ∧
    NewPropertyFilterType false (some V) r =
      { Exists := none, Values := none, ExcludeValues := some V,
        RequireEveryValue := some r } :=
  ⟨rfl, rfl⟩

/-- C4 counterexample: the freshly constructed chats aggregate does not
serialize to the empty JSON object, because `NewChatsFilters` sets
`IncludeActive` to true and `omitempty` keeps a true boolean. -/
theorem freshChatsFilters_not_empty_json :
    ¬ marshalChatsFilters NewChatsFilters = Json.obj [] := by
  intro h
  have h2 : Json.obj [("include_active", Json.bool true)] = Json.obj [] := h
  injection h2 with h3
  exact List.noConfusion h3

/-- C4 amended: freshly constructed archives, customers and threads
aggregates serialize to the empty JSON object, while the fresh chats
aggregate serializes to the single field `include_active: true`. -/
theorem fresh_aggregates_serialization :
    marshalArchivesFilters NewArchivesFilters = Json.obj [] ∧
    marshalCustomersFilters NewCustomersFilters = Json.obj [] ∧
    marshalThreadsFilters NewThreadsFilters = Json.obj [] ∧
    marshalChatsFilters NewChatsFilters = Json.obj [("include_active", Json.bool true)] :=
  ⟨rfl, rfl, rfl, rfl⟩

/-- C5: `NewChatsFilters().WithoutActiveChats()` serializes to the empty
JSON object: `IncludeActive` is back at false, the omit value. -/
theorem withoutActiveChats_serializes_empty :
    marshalChatsFilters NewChatsFilters.WithoutActiveChats = Json.obj [] :=
  rfl

/-- C6: `NewStringFilter` and `NewIntegerFilter` populate exactly one of the
two value-set fields, `Values` when inclusive and `ExcludeValues` otherwise,
for every value list including nil; no input is rejected. -/
theorem string_integer_filters_exclusive (Vs : Option (List String)) (Vi : Option (List Int)) :
    NewStringFilter Vs true = { Values := Vs, ExcludeValues := none } ∧
    NewStringFilter Vs false = { Values := none, ExcludeValues := Vs } ∧
    NewIntegerFilter Vi true = { Values := Vi, ExcludeValues := none } ∧
    NewIntegerFilter Vi false = { Values := none, ExcludeValues := Vi } :=
  ⟨rfl, rfl, rfl, rfl⟩

/-- C7: the archives aggregate built by `ByGroups [1,2]` then
`FromDate "2020-01-01"` serializes to exactly the two fields
`group_ids: [1,2]` and `from: "2020-01-01"`, in that order. -/
theorem archives_byGroups_fromDate_example :
    marshalArchivesFilters ((NewArchivesFilters.ByGroups (some [1, 2])).FromDate "2020-01-01") =
      Json.obj [("group_ids", Json.arr [Json.num 1, Json.num 2]),
        ("from", Json.str "2020-01-01")] :=
  rfl

/-- C8: every chained mutator except `archivesFilters.ByThreads` is an
unconditional single-field overwrite: applied in any state, it returns the
aggregate with exactly its own field replaced and all others unchanged. -/
theorem mutators_overwrite_single_field
    (af : archivesFilters) (cf : customersFilters) (ch : chatsFilters) (tf : threadsFilters)
    (i r inc b : Bool) (vj : Option (List Json)) (vs : Option (List String))
    (vi : Option (List Int)) (g : Option (List Nat)) (d q : String)
    (pf : Option PropertiesFilters) (sv : Option (List SurveyFilter))
    (rg : Option RangeFilter) (dr : Option DateRangeFilter) :
    af.ByAgents i vj r = { af with Agents := some (NewPropertyFilterType i vj r) } ∧
    af.ByGroups g = { af with GroupIDs := g } ∧
    af.ByQuery q = { af with Query := q } ∧
    af.FromDate d = { af with From := d } ∧
    af.ToDate d = { af with To := d } ∧
    af.ByProperties pf = { af with Properties := pf } ∧
    af.BySurveys sv = { af with Surveys := sv } ∧
    af.ByTags i vj r = { af with Tags := some (NewPropertyFilterType i vj r) } ∧
    af.BySales i vj r = { af with Sales := some (NewPropertyFilterType i vj r) } ∧
    af.ByGoals i vj r = { af with Goals := some (NewPropertyFilterType i vj r) } ∧
    af.ByEventTypes i vs r = { af with EventTypes := some (if i then
      { Values := vs, RequireEveryValue := some r }
      else { ExcludeValues := vs, RequireEveryValue := some r }) } ∧
    cf.ByCountry vs inc = { cf with Country := some (NewStringFilter vs inc) } ∧
    cf.ByEmail vs inc = { cf with Email := some (NewStringFilter vs inc) } ∧
    cf.ByName vs inc = { cf with Name := some (NewStringFilter vs inc) } ∧
    cf.ByID vs inc = { cf with CustomerID := some (NewStringFilter vs inc) } ∧
    cf.ByChatGroupIDs vi inc = { cf with ChatGroupIDs := some (NewIntegerFilter vi inc) } ∧
    cf.ByChatsCount rg = { cf with ChatsCount := rg } ∧
    cf.ByThreadsCount rg = { cf with ThreadsCount := rg } ∧
    cf.ByVisitsCount rg = { cf with VisitsCount := rg } ∧
    cf.ByCreationTime dr = { cf with CreatedAt := dr } ∧
    cf.ByAgentsLastActivity dr = { cf with AgentLastEventCreatedAt := dr } ∧
    cf.ByCustomersLastActivity dr = { cf with CustomerLastEventCreatedAt := dr } ∧
    cf.WithIncludeCustomersWithoutChats b = { cf with IncludeCustomersWithoutChats := some b } ∧
    ch.WithoutActiveChats = { ch with IncludeActive := false } ∧
    ch.WithChatsWithoutThreads = { ch with IncludeChatsWithoutThreads := true } ∧
    ch.ByGroups g = { ch with GroupIDs := g } ∧
    ch.ByProperties pf = { ch with Properties := pf } ∧
    tf.FromDate d = { tf with From := d } ∧
    tf.ToDate d = { tf with To := d } := by
  refine ⟨rfl, rfl, rfl, rfl, rfl, rfl, rfl, rfl, rfl, rfl, ?_, rfl, rfl, rfl, rfl, rfl,
    rfl, rfl, rfl, rfl, rfl, rfl, rfl, rfl, rfl, rfl, rfl, rfl, rfl⟩
  cases i <;> rfl

/-- C9: the thread-ID exclusivity is enforced only by `ByThreads` itself:
every other archives mutator applied afterwards keeps `ThreadIDs` while
populating its own field, and the result can serialize thread IDs together
with other criteria. -/
theorem byThreads_exclusivity_not_enforced_afterwards
    (af : archivesFilters) (t : Option (List String)) (i r : Bool)
    (vj : Option (List Json)) (vs : Option (List String)) (g : Option (List Nat))
    (d q : String) (pf : Option PropertiesFilters) (sv : Option (List SurveyFilter)) :
    ((af.ByThreads t).ByAgents i vj r).ThreadIDs = t ∧
    ((af.ByThreads t).ByAgents i vj r).Agents = some (NewPropertyFilterType i vj r) ∧
    ((af.ByThreads t).ByGroups g).ThreadIDs = t ∧
    ((af.ByThreads t).ByGroups g).GroupIDs = g ∧
    ((af.ByThreads t).ByQuery q).ThreadIDs = t ∧
    ((af.ByThreads t).ByQuery q).Query = q ∧
    ((af.ByThreads t).FromDate d).ThreadIDs = t ∧
    ((af.ByThreads t).FromDate d).From = d ∧
    ((af.ByThreads t).ToDate d).ThreadIDs = t ∧
    ((af.ByThreads t).ToDate d).To = d ∧
    ((af.ByThreads t).ByProperties pf).ThreadIDs = t ∧
    ((af.ByThreads t).ByProperties pf).Properties = pf ∧
    ((af.ByThreads t).BySurveys sv).ThreadIDs = t ∧
    ((af.ByThreads t).BySurveys sv).Surveys = sv ∧
    ((af.ByThreads t).ByTags i vj r).ThreadIDs = t ∧
    ((af.ByThreads t).ByTags i vj r).Tags = some (NewPropertyFilterType i vj r) ∧
    ((af.ByThreads t).BySales i vj r).ThreadIDs = t ∧
    ((af.ByThreads t).BySales i vj r).Sales = some (NewPropertyFilterType i vj r) ∧
    ((af.ByThreads t).ByGoals i vj r).ThreadIDs = t ∧
    ((af.ByThreads t).ByGoals i vj r).Goals = some (NewPropertyFilterType i vj r) ∧
    ((af.ByThreads t).ByEventTypes i vs r).ThreadIDs = t ∧
    ((af.ByThreads t).ByEventTypes i vs r).EventTypes.isSome = true ∧
    marshalArchivesFilters ((NewArchivesFilters.ByThreads (some ["t1"])).ByQuery "hello") =
      Json.obj [("thread_ids", Json.arr [Json.str "t1"]), ("query", Json.str "hello")] :=
  ⟨rfl, rfl, rfl, rfl, rfl, rfl, rfl, rfl, rfl, rfl, rfl, rfl, rfl, rfl, rfl, rfl, rfl,
    rfl, rfl, rfl, rfl, rfl, rfl⟩

/-- C10: every zero bound of a `RangeFilter` and every empty-string bound of
a `DateRangeFilter` is dropped by `omitempty`, so no serialized bound value
is ever `0` or `""`; in particular the `chats_count`, `threads_count` and
`visits_count` payloads of the customers aggregate carry only the nonzero
bounds of the stored `RangeFilter`. -/
theorem zero_bounds_never_serialized
    (r : RangeFilter) (d : DateRangeFilter) (cf : customersFilters) (rg : RangeFilter) :
    (∀ p, p ∈ rangeFilterFields r → p.2 ≠ Json.num 0) ∧
    (∀ p, p ∈ dateRangeFilterFields d → p.2 ≠ Json.str "") ∧
    (∃ fs, marshalCustomersFilters (cf.ByChatsCount (some rg)) = Json.obj fs ∧
      ("chats_count", Json.obj (rangeFilterFields rg)) ∈ fs) ∧
    (∃ fs, marshalCustomersFilters (cf.ByThreadsCount (some rg)) = Json.obj fs ∧
      ("threads_count", Json.obj (rangeFilterFields rg)) ∈ fs) ∧
    (∃ fs, marshalCustomersFilters (cf.ByVisitsCount (some rg)) = Json.obj fs ∧
      ("visits_count", Json.obj (rangeFilterFields rg)) ∈ fs) := by
  refine ⟨?_, ?_, ?_, ?_, ?_⟩
  · intro p hp
    simp only [rangeFilterFields, omitInt, List.mem_append] at hp
    rcases hp with ((((h | h) | h) | h) | h) <;>
      · split at h <;> simp_all
  · intro p hp
    simp only [dateRangeFilterFields, omitStr, List.mem_append] at hp
    rcases hp with ((((h | h) | h) | h) | h) <;>
      · split at h <;> simp_all
  · exact ⟨_, rfl, by
      simp [marshalCustomersFilters, customersFilters.ByChatsCount, omitOptObj,
        marshalRangeFilter, List.mem_append]⟩
  · exact ⟨_, rfl, by
      simp [marshalCustomersFilters, customersFilters.ByThreadsCount, omitOptObj,
        marshalRangeFilter, List.mem_append]⟩
  · exact ⟨_, rfl, by
      simp [marshalCustomersFilters, customersFilters.ByVisitsCount, omitOptObj,
        marshalRangeFilter, List.mem_append]⟩

/-- C10 witness: on the concrete filters with `GTE = 5` and `LTE = "2020"`,
the single serialized bounds are indeed nonzero and nonempty. -/
theorem zero_bounds_never_serialized_witness :
    (("gte", Json.num 5) ∈ rangeFilterFields { GTE := 5 } ∧
      (("gte", Json.num 5) : String × Json).2 ≠ Json.num 0) ∧
    (("lte", Json.str "2020") ∈ dateRangeFilterFields { LTE := "2020" } ∧
      (("lte", Json.str "2020") : String × Json).2 ≠ Json.str "") :=
  ⟨⟨by simp [rangeFilterFields, omitInt],
    (zero_bounds_never_serialized { GTE := 5 } { LTE := "2020" } {} {}).1
      ("gte", Json.num 5) (by simp [rangeFilterFields, omitInt])⟩,
   ⟨by simp [dateRangeFilterFields, omitStr],
    (zero_bounds_never_serialized { GTE := 5 } { LTE := "2020" } {} {}).2.1
      ("lte", Json.str "2020") (by simp [dateRangeFilterFields, omitStr])⟩⟩
